import Mathlib

/-!
Verification of the SwarProf backend (FastAPI artist-profile extraction service)
against its natural-language specification.

The Python sources are shallowly embedded: strings are `List Char`, Python
`dict`s produced by `json.loads` are an inductive `Json` value, and the
controller methods become total Lean functions.  External effects that the
repository itself does not implement — the Gemini SDK call, `json.loads`,
the `re` library's `findall` on the fixed contact-detail patterns, pydantic
validation, MongoDB — are passed in as explicit arguments (oracles), so every
theorem quantifies over all behaviours of those libraries.  Case mappings
(`lower`, `upper`, `title`) and the digit/whitespace character classes are
modelled at ASCII precision.
-/

/-- Python strings are modelled as lists of characters. -/
abbrev PyStr := List Char

/-- JSON values, as produced by `json.loads`: Python dicts become ordered
key/value lists (`obj`), matching insertion order semantics of `dict`. -/
inductive Json where
  | null : Json
  | bool (b : Bool) : Json
  | num (n : Int) : Json
  | str (s : PyStr) : Json
  | arr (elems : List Json) : Json
  | obj (fields : List (PyStr × Json)) : Json

/-- A Python dict with string keys (the shape of every dict the controllers
build). -/
abbrev Objd := List (PyStr × Json)

/-- Python whitespace (`str.isspace` / regex `\s` for `str` patterns). -/
def isPyWs (c : Char) : Bool :=
  c = ' ' || c = '\t' || c = '\n' || c = '\r' || c = '\x0b' || c = '\x0c' ||
  (0x1c ≤ c.toNat && c.toNat ≤ 0x1f) || c.toNat = 0x85 || c.toNat = 0xa0 ||
  c.toNat = 0x1680 || (0x2000 ≤ c.toNat && c.toNat ≤ 0x200a) ||
  c.toNat = 0x2028 || c.toNat = 0x2029 || c.toNat = 0x202f ||
  c.toNat = 0x205f || c.toNat = 0x3000

/-- `s.lower()` (ASCII case mapping). -/
def pyLower (s : PyStr) : PyStr := s.map Char.toLower

/-- `s.replace(old, new)` for single-character old/new. -/
def pyReplaceChar (s : PyStr) (old new : Char) : PyStr :=
  s.map (fun c => if c = old then new else c)

/-- `s.lstrip()` : drop leading whitespace. -/
def pyLstrip (s : PyStr) : PyStr := s.dropWhile isPyWs

/-- `s.strip()` : drop leading and trailing whitespace. -/
def pyStripWs (s : PyStr) : PyStr :=
  ((s.dropWhile isPyWs).reverse.dropWhile isPyWs).reverse

/-- `s.strip(chars)` : drop leading and trailing characters from `chars`. -/
def pyStripChars (chars : PyStr) (s : PyStr) : PyStr :=
  ((s.dropWhile (fun c => chars.contains c)).reverse.dropWhile
      (fun c => chars.contains c)).reverse

/-- Does `s` start with `p` (`s.startswith(p)`)? -/
def listStartsWith (p s : PyStr) : Bool :=
  match p, s with
  | [], _ => true
  | _ :: _, [] => false
  | a :: ps, b :: ss => a = b && listStartsWith ps ss

/-- Index of the first occurrence of substring `needle` in `s`
(`s.find(needle)` restricted to found/not-found). -/
def findSubFrom (needle : PyStr) : PyStr → Option Nat
  | [] => if needle.isEmpty then some 0 else none
  | c :: rest =>
    if listStartsWith needle (c :: rest) then some 0
    else (findSubFrom needle rest).map (· + 1)

/-- Python `needle in s` substring test. -/
def containsSub (needle s : PyStr) : Bool := (findSubFrom needle s).isSome

/-- Index of the first occurrence of character `c` in `s`. -/
def findCharIdx (s : PyStr) (c : Char) : Option Nat := findSubFrom [c] s

/-- Index of the last occurrence of character `c` in `s` (`s.rfind(c)`
restricted to found/not-found). -/
def rfindCharIdx (s : PyStr) (c : Char) : Option Nat :=
  match findCharIdx s.reverse c with
  | some i => some (s.length - 1 - i)
  | none => none

/-- `s.find(c)` with Python's `-1` for "not found". -/
def pyFindChar (s : PyStr) (c : Char) : Int :=
  match findCharIdx s c with
  | some i => (i : Int)
  | none => -1

/-- `s.rfind(c)` with Python's `-1` for "not found". -/
def pyRfindChar (s : PyStr) (c : Char) : Int :=
  match rfindCharIdx s c with
  | some i => (i : Int)
  | none => -1

/-- `s[a:b]` for `0 ≤ a ≤ b` (the only way the sources slice). -/
def pySlice (s : PyStr) (a b : Int) : PyStr :=
  (s.drop a.toNat).take (b - a).toNat

/-- `s.split(sep)` for a single-character separator: keeps empty fields. -/
def splitCharGo (sep : Char) : PyStr → PyStr → List PyStr
  | [], acc => [acc.reverse]
  | c :: rest, acc =>
    if c = sep then acc.reverse :: splitCharGo sep rest []
    else splitCharGo sep rest (c :: acc)

/-- `s.split(sep)` for a single-character separator. -/
def pySplitChar (sep : Char) (s : PyStr) : List PyStr := splitCharGo sep s []

/-- `s.split()` : split on whitespace runs, dropping empty fields. -/
def splitWsGo : PyStr → PyStr → List PyStr
  | [], acc => if acc.isEmpty then [] else [acc.reverse]
  | c :: rest, acc =>
    if isPyWs c then
      if acc.isEmpty then splitWsGo rest [] else acc.reverse :: splitWsGo rest []
    else splitWsGo rest (c :: acc)

/-- `s.split()` (whitespace split). -/
def pySplitWs (s : PyStr) : List PyStr := splitWsGo s []

/-- `sep.join(parts)`. -/
def pyJoin (sep : PyStr) : List PyStr → PyStr
  | [] => []
  | [x] => x
  | x :: y :: rest => x ++ sep ++ pyJoin sep (y :: rest)

/-- One step of Python `str.title()`: the boolean records whether the
previous character was cased (ASCII: alphabetic). -/
def titleAux : PyStr → Bool → PyStr
  | [], _ => []
  | c :: rest, prevCased =>
    (if c.isAlpha then (if prevCased then c.toLower else c.toUpper) else c)
      :: titleAux rest c.isAlpha

/-- `s.title()` (ASCII case mapping). -/
def pyTitle (s : PyStr) : PyStr := titleAux s false

/-- Python truthiness of a JSON value (`not x` negated). -/
def pyTruthy (v : Json) : Bool :=
  match v with
  | Json.null => false
  | Json.bool b => b
  | Json.num n => !(n = 0 : Bool)
  | Json.str s => !s.isEmpty
  | Json.arr l => !l.isEmpty
  | Json.obj l => !l.isEmpty

/-- `d.get(key)` on an ordered dict. -/
def getKey : Objd → PyStr → Option Json
  | [], _ => none
  | (k, v) :: rest, key => if k = key then some v else getKey rest key

/-- `d.get(key, default)`. -/
def getKeyD (d : Objd) (key : PyStr) (default : Json) : Json :=
  match getKey d key with
  | some v => v
  | none => default

/-- `d[key] = v` : replace in place if present, else append (dict order). -/
def setKey : Objd → PyStr → Json → Objd
  | [], key, v => [(key, v)]
  | (k, w) :: rest, key, v =>
    if k = key then (k, v) :: rest else (k, w) :: setKey rest key v

/-- Truthiness of `d.get(key)` as used in `if not d.get("artist_name")`:
a missing key yields `None`, which is falsy. -/
def truthyAt (d : Objd) (key : PyStr) : Bool :=
  match getKey d key with
  | some v => pyTruthy v
  | none => false

/-- `settings.ALLOWED_EXTENSIONS` (`src/config.py`; the Python set is
modelled as the list in declaration order — only membership is used). -/
def ALLOWED_EXTENSIONS : List PyStr :=
  ["pdf".toList, "docx".toList, "jpg".toList, "jpeg".toList, "png".toList,
   "bmp".toList, "tiff".toList]

/-- `settings.MAX_FILE_SIZE` (16 MB default). -/
def MAX_FILE_SIZE : Int := 16 * 1024 * 1024

/-- `get_file_extension` (`src/utils/file_utils.py`): lower-cased text after
the last dot, `None` when the filename has no dot. -/
def get_file_extension (filename : PyStr) : Option PyStr :=
  match rfindCharIdx filename '.' with
  | some i => some (pyLower (filename.drop (i + 1)))
  | none => none

/-- `is_allowed_file` (`src/utils/file_utils.py`): `ext in ALLOWED_EXTENSIONS
if ext else False` — the empty extension is falsy. -/
def is_allowed_file (filename : PyStr) : Bool :=
  match get_file_extension filename with
  | some ext => if ext.isEmpty then false else ALLOWED_EXTENSIONS.contains ext
  | none => false

/-- The character class kept by `secure_filename`'s first substitution
(`[^A-Za-z0-9\s._\-]` removed). -/
def keepClass (c : Char) : Bool :=
  c.isAlphanum || isPyWs c || c = '.' || c = '_' || c = '-'

/-- The separator class collapsed by `secure_filename`'s second substitution
(`[\s_\-]+` → `_`). -/
def sepClass (c : Char) : Bool := isPyWs c || c = '_' || c = '-'

/-- `re.sub(r'[\s_\-]+', '_', s)`: each maximal run of separator characters
becomes a single underscore.  The boolean tracks whether we are inside a
run whose underscore was already emitted. -/
def collapseSeps : PyStr → Bool → PyStr
  | [], _ => []
  | c :: rest, inRun =>
    if sepClass c then
      if inRun then collapseSeps rest true else '_' :: collapseSeps rest true
    else c :: collapseSeps rest false

/-- `secure_filename` (`src/utils/file_utils.py`, the local implementation
used by `save_uploaded_file`): removes unsafe characters, collapses
whitespace/underscore/hyphen runs to `_`, strips outer underscores, and
falls back to `"unnamed_file"`. -/
def secure_filename (filename : PyStr) : PyStr :=
  let step1 := pyStripWs (filename.filter keepClass)
  let step2 := collapseSeps step1 false
  let step3 := pyStripChars ['_'] step2
  if step3.isEmpty then "unnamed_file".toList else step3

/-- `PurePath(f).name`: last path component ('.' segments and empty segments
are dropped by pathlib's normalisation). -/
def pathName (f : PyStr) : PyStr :=
  (((pySplitChar '/' f).filter
      (fun seg => !seg.isEmpty && seg ≠ ['.'])).getLast?).getD []

/-- `PurePath(f).stem`: the name with its suffix removed; pathlib only
strips a suffix whose dot is at position `0 < i < len(name) - 1`. -/
def pathStem (f : PyStr) : PyStr :=
  let name := pathName f
  match rfindCharIdx name '.' with
  | some i => if 0 < i ∧ i + 1 < name.length then name.take i else name
  | none => name

/-- Does `s` begin with the controller's timestamp pattern
`^\d{8}_\d{6}_` (ASCII digits)? -/
def hasTimestampStamp (s : PyStr) : Bool :=
  let p := s.take 16
  p.length = 16 && (p.take 8).all Char.isDigit && p.get? 8 = some '_' &&
    ((p.drop 9).take 6).all Char.isDigit && p.get? 15 = some '_'

/-- `re.sub(r'^\d{8}_\d{6}_', '', s)`. -/
def dropTimestampStamp (s : PyStr) : PyStr :=
  if hasTimestampStamp s then s.drop 16 else s

/-- The cleaned name computed by `extract_artist_name_from_filename`
before its final length check. -/
def cleanedFilenameName (filename : PyStr) : PyStr :=
  let name := pathStem filename
  let name := dropTimestampStamp name
  let name := pyReplaceChar (pyReplaceChar name '_' ' ') '-' ' '
  let name := pyTitle name
  pyJoin [' '] (pySplitWs name)

/-- `ArtistController.extract_artist_name_from_filename`
(`src/controllers/artist_controller.py`): strips the extension and a
timestamp prefix, turns separators into spaces, title-cases, collapses
spaces, and falls back to "Unknown Artist" when fewer than 2 characters
remain. -/
def extract_artist_name_from_filename (filename : PyStr) : PyStr :=
  let name := cleanedFilenameName filename
  if name.isEmpty || (pyStripWs name).length < 2 then "Unknown Artist".toList
  else name

/-- The fence opening literal searched for by the controllers. -/
def jsonFenceTag : PyStr := "```json".toList

/-- The closing fence literal. -/
def closeFence : PyStr := "\n```".toList

/-- Backtracking attempt of `re.search(r'```json\s*\n(.*?)\n```', ., DOTALL)`
at a fixed start, applied to the text following the opening literal:
greedy `\s*` tries the longest whitespace prefix ending right before a
newline first, then the lazy group stops at the earliest later `\n```. -/
def fenceAttempt (rest : PyStr) : Option PyStr :=
  (((List.range rest.length).filter
      (fun t => (rest.take t).all isPyWs && rest.get? t = some '\n')).reverse).findSome?
    (fun t =>
      match findSubFrom closeFence (rest.drop (t + 1)) with
      | some p => some ((rest.drop (t + 1)).take p)
      | none => none)

/-- `re.search(r'```json\s*\n(.*?)\n```', content, re.DOTALL)`: scan start
positions left to right, returning group 1 of the first full match. -/
def searchFence : PyStr → Option PyStr
  | [] => none
  | c :: rest =>
    if listStartsWith jsonFenceTag (c :: rest) then
      match fenceAttempt ((c :: rest).drop jsonFenceTag.length) with
      | some g => some g
      | none => searchFence rest
    else searchFence rest

/-- The opening-brace character (written via its code point). -/
def lbrace : Char := Char.ofNat 123

/-- The closing-brace character (written via its code point). -/
def rbrace : Char := Char.ofNat 125

/-- The brace-slicing fallback shared by both parse sites:
`start = content.find('{'); end = content.rfind('}') + 1;
content[start:end] if start != -1 and end > start else content`. -/
def braceSlice (content : PyStr) : PyStr :=
  let start : Int := pyFindChar content lbrace
  let stop : Int := pyRfindChar content rbrace + 1
  if start ≠ -1 ∧ stop > start then pySlice content start stop else content

/-- The JSON-candidate selection of `ArtistController.extract_with_gemini`
and `ExtractionService.extract_artist_info_with_gemini` (identical code):
fenced block if the fence regex matches, else brace slice, else the whole
string. -/
def select_json_candidate (content : PyStr) : PyStr :=
  if containsSub jsonFenceTag content then
    match searchFence content with
    | some g => g
    | none => braceSlice content
  else braceSlice content

/-- The selection rule as worded by the claim: if the string contains
"```json" and the regex matches, the first fenced block's content; otherwise
if the string has a first brace at `start` and `rfind('}') + 1 > start`,
the slice between them; otherwise the whole string. -/
def select_json_candidate_claim (content : PyStr) : PyStr :=
  if containsSub jsonFenceTag content && (searchFence content).isSome then
    (searchFence content).getD content
  else
    let start : Int := pyFindChar content lbrace
    let stop : Int := pyRfindChar content rbrace + 1
    if start ≠ -1 ∧ stop > start then pySlice content start stop else content

/-- Outcome of the Gemini SDK interaction inside a controller method,
treated as an input: the SDK and its network call are external to the
repository. `unavailable` is the `genai is None or not GEMINI_API_KEY`
branch, `failure` any exception raised by `generate_content`, `success`
carries `response.text`. -/
inductive GeminiCall where
  | unavailable : GeminiCall
  | failure : GeminiCall
  | success (text : PyStr) : GeminiCall

/-- `json.loads`, treated as an oracle: `none` models `JSONDecodeError`. -/
abbrev Loads := PyStr → Option Json

/-- `re.findall(pattern, text[, re.IGNORECASE])`, treated as an oracle over
the fixed contact-detail patterns (the regex library is external): arguments
are pattern, ignore-case flag, text; the result is the list of captures. -/
abbrev FindAll := PyStr → Bool → PyStr → List PyStr

/-- Phone pattern 1 (Indian mobile) of
`_extract_contact_details_from_text`. -/
def phonePattern1 : PyStr := "(?:\\+?91[-.\\s]?)?[6-9]\\d\x7b9\x7d".toList

/-- Phone pattern 2 (US phone). -/
def phonePattern2 : PyStr :=
  "(?:\\+?1[-.\\s]?)?[2-9]\\d\x7b2\x7d[-.\\s]?\\d\x7b3\x7d[-.\\s]?\\d\x7b4\x7d".toList

/-- Phone pattern 3 (general). -/
def phonePattern3 : PyStr :=
  "(?:\\+?\\d\x7b1,3\x7d[-.\\s]?)?\\(?\\d\x7b3,4\x7d\\)?[-.\\s]?\\d\x7b3,4\x7d[-.\\s]?\\d\x7b3,4\x7d".toList

/-- Email pattern. -/
def emailPattern : PyStr :=
  "\\b[A-Za-z0-9._%+-]+@[A-Za-z0-9.-]+\\.[A-Z|a-z]\x7b2,\x7d\\b".toList

/-- Social-media patterns in the source dict's insertion order. -/
def socialPatterns : List (PyStr × PyStr) :=
  [("instagram".toList, "(?:instagram\\.com/|@)([a-zA-Z0-9_.]+)".toList),
   ("facebook".toList, "facebook\\.com/([a-zA-Z0-9.]+)".toList),
   ("twitter".toList, "(?:twitter\\.com/|@)([a-zA-Z0-9_]+)".toList),
   ("youtube".toList, "youtube\\.com/(?:channel/|user/|c/)?([a-zA-Z0-9_-]+)".toList),
   ("linkedin".toList, "linkedin\\.com/in/([a-zA-Z0-9-]+)".toList),
   ("spotify".toList, "spotify\\.com/artist/([a-zA-Z0-9]+)".toList),
   ("tiktok".toList, "tiktok\\.com/@([a-zA-Z0-9_.]+)".toList)]

/-- Website pattern. -/
def websitePattern : PyStr :=
  "(?:https?://)?(?:www\\.)?([a-zA-Z0-9-]+\\.[a-zA-Z]\x7b2,\x7d(?:/[^\\s]*)?)".toList

/-- Domains filtered out of the website candidates. -/
def socialDomains : List PyStr :=
  ["instagram.com".toList, "facebook.com".toList, "twitter.com".toList,
   "youtube.com".toList, "linkedin.com".toList, "spotify.com".toList,
   "tiktok.com".toList]

/-- Address keywords scanned line by line. -/
def addressKeywords : List PyStr :=
  ["address".toList, "located at".toList, "based in".toList, "residing in".toList]

/-- The address loop of `_extract_contact_details_from_text`: the first
line containing an address keyword, stripped (a line stripping to empty is
falsy in Python, so the scan continues past it). -/
def findAddress (linesOfText : List PyStr) : Option PyStr :=
  linesOfText.findSome? (fun l =>
    if addressKeywords.any (fun k => containsSub k (pyLower l)) then
      let a := pyStripWs l
      if a.isEmpty then none else some a
    else none)

/-- The first website capture not containing a social domain, prefixed with
`https://` unless it already starts with `http`. -/
def websiteFrom (websites : List PyStr) : Json :=
  match websites.find?
      (fun s => !(socialDomains.any (fun d => containsSub d (pyLower s)))) with
  | some s =>
    Json.str (if listStartsWith "http".toList s then s else "https://".toList ++ s)
  | none => Json.null

/-- `ArtistController._extract_contact_details_from_text`: phone, email,
social-media, website and address extraction over the fixed patterns (the
regex engine is the `fa` oracle). -/
def extract_contact_details_from_text (text : PyStr) (fa : FindAll) : Objd :=
  let phone_numbers :=
    fa phonePattern1 false text ++ fa phonePattern2 false text ++
      fa phonePattern3 false text
  let emails := fa emailPattern false text
  let social_media : Objd := socialPatterns.map (fun pp =>
    (pp.1, match fa pp.2 true text with
           | m :: _ => Json.str m
           | [] => Json.null))
  let website := websiteFrom (fa websitePattern true text)
  let address_info := findAddress (pySplitChar '\n' text)
  [("social_media".toList, Json.obj social_media),
   ("contact_info".toList, Json.obj
     [("phone_numbers".toList,
        if phone_numbers.isEmpty then Json.null
        else Json.arr (phone_numbers.map Json.str)),
      ("emails".toList,
        if emails.isEmpty then Json.null else Json.arr (emails.map Json.str)),
      ("website".toList, website),
      ("phone".toList, match phone_numbers with
                       | p :: _ => Json.str p
                       | [] => Json.null),
      ("email".toList, match emails with
                       | e :: _ => Json.str e
                       | [] => Json.null)]),
   ("address".toList, match address_info with
      | some a => Json.obj
          [("full_address".toList, Json.str a), ("city".toList, Json.null),
           ("state".toList, Json.null), ("country".toList, Json.null)]
      | none => Json.null)]

/-- Guru keywords in source order. -/
def guruKeywords : List PyStr :=
  ["guru".toList, "teacher".toList, "ustad".toList, "pandit".toList,
   "under".toList, "trained with".toList, "student of".toList]

/-- The word scan of `_extract_guru_name` for one keyword: the first index
`i` with the keyword inside `words[i].lower()` and `i < len(words) - 2`
yields `' '.join(words[i+1:i+3]).strip('.,')` (the joined tokens are
non-empty, matching the Python truthiness guard). -/
def scanGuruWords (words : List PyStr) (kw : PyStr) : Option PyStr :=
  (List.range words.length).findSome? (fun i =>
    if containsSub kw (pyLower ((words.get? i).getD [])) &&
        decide ((i : Int) < (words.length : Int) - 2) then
      let pg := pyJoin [' '] ((words.drop (i + 1)).take 2)
      if pg.isEmpty then none else some (pyStripChars (['.'] ++ [',']) pg)
    else none)

/-- `ArtistController._extract_guru_name`: first line, first keyword, first
qualifying word position. -/
def extract_guru_name (linesOfText : List PyStr) : Option PyStr :=
  linesOfText.findSome? (fun line =>
    let line_lower := pyLower line
    guruKeywords.findSome? (fun kw =>
      if containsSub kw line_lower then scanGuruWords (pySplitWs line) kw
      else none))

/-- `ArtistController._extract_gharana_name`: only the first line containing
"gharana" is scanned; the word before the first "gharana" word (at a
positive index) is returned. -/
def extract_gharana_name (linesOfText : List PyStr) (text_lower : PyStr) :
    Option PyStr :=
  if containsSub ("gharana".toList) text_lower then
    match linesOfText.find? (fun l => containsSub ("gharana".toList) (pyLower l)) with
    | some line =>
      let words := pySplitWs line
      (List.range words.length).findSome? (fun i =>
        if containsSub ("gharana".toList) (pyLower ((words.get? i).getD [])) &&
            decide (0 < i) then
          some ((words.get? (i - 1)).getD [])
        else none)
    | none => none
  else none

/-- Achievement keywords in source order. -/
def achievementKeywords : List PyStr :=
  ["award".toList, "conferred".toList, "recognition".toList,
   "performed".toList, "festival".toList, "honor".toList, "prize".toList,
   "achievement".toList]

/-- `ArtistController._extract_achievements`: one recognition entry per line
containing an achievement keyword. -/
def extract_achievements (linesOfText : List PyStr) : List Json :=
  (linesOfText.filter (fun l =>
      achievementKeywords.any (fun k => containsSub k (pyLower l)))).map
    (fun l => Json.obj
      [("type".toList, Json.str ("recognition".toList)),
       ("title".toList, Json.str (pyStripWs l)),
       ("year".toList, Json.null),
       ("details".toList, Json.null)])

/-- An optional extracted string as a JSON field value. -/
def optStr (o : Option PyStr) : Json :=
  match o with
  | some s => Json.str s
  | none => Json.null

/-- `ArtistController.create_fallback_data`: the pattern-matching fallback
dict, with `artist_name` set to the argument (the source's GUARANTEED
comment). -/
def create_fallback_data (artist_name document_text : PyStr) (fa : FindAll) :
    Objd :=
  let text_lower := pyLower document_text
  let linesOfText := pySplitChar '\n' document_text
  let contact_details := extract_contact_details_from_text document_text fa
  let guru_name := extract_guru_name linesOfText
  let gharana_name := extract_gharana_name linesOfText text_lower
  let achievements := extract_achievements linesOfText
  let sentences := pySplitChar '.' (pyReplaceChar document_text '\n' ' ')
  let summary :=
    if !sentences.isEmpty then
      pyStripWs (pyJoin (". ".toList) (sentences.take 3)) ++ ['.']
    else "Information about ".toList ++ artist_name
  let style :=
    if containsSub ("classical".toList) text_lower then
      Json.str ("Indian Classical".toList)
    else Json.null
  let tradition :=
    if containsSub ("classical".toList) text_lower then
      Json.str ("Indian Classical Music".toList)
    else Json.null
  [("artist_name".toList, Json.str artist_name),
   ("guru_name".toList, optStr guru_name),
   ("gharana_details".toList,
     match gharana_name with
     | some g =>
       if g.isEmpty then Json.null
       else Json.obj
         [("gharana_name".toList, Json.str g),
          ("style".toList, style), ("tradition".toList, tradition)]
     | none => Json.null),
   ("biography".toList, Json.obj
     [("early_life".toList, Json.null),
      ("background".toList, Json.str summary),
      ("education".toList, Json.null),
      ("career_highlights".toList, Json.null)]),
   ("achievements".toList, Json.arr achievements),
   ("contact_details".toList, Json.obj contact_details),
   ("summary".toList, Json.str summary),
   ("extraction_confidence".toList, Json.str ("medium".toList)),
   ("additional_notes".toList,
     Json.str ("Extracted using fallback method with pattern matching".toList))]

/-- `ArtistController.extract_with_gemini`: when the model is unavailable,
the call raises, the candidate fails `json.loads`, or the parsed value is
not a dict (the `data["artist_name"] = ...` assignment raises and the
generic `except` catches it), the fallback data is returned; on a parsed
dict the `artist_name` key is overwritten with the argument. -/
def extract_with_gemini (artist_name document_text : PyStr)
    (call : GeminiCall) (loads : Loads) (fa : FindAll) : Objd :=
  match call with
  | GeminiCall.unavailable => create_fallback_data artist_name document_text fa
  | GeminiCall.failure => create_fallback_data artist_name document_text fa
  | GeminiCall.success raw =>
    let content := pyStripWs raw
    let json_str := select_json_candidate content
    match loads json_str with
    | some (Json.obj kvs) => setKey kvs ("artist_name".toList) (Json.str artist_name)
    | some _ => create_fallback_data artist_name document_text fa
    | none => create_fallback_data artist_name document_text fa

/-- An `HTTPException` as raised by the controllers: status code and detail
string. -/
structure HttpError where
  status : Nat
  detail : PyStr
deriving DecidableEq

/-- The 400 raised when `is_allowed_file` fails (the Python set's iteration
order in the joined detail is modelled by declaration order). -/
def errFileType : HttpError :=
  ⟨400, "File type not allowed. Supported formats: pdf, docx, jpg, jpeg, png, bmp, tiff".toList⟩

/-- The 400 raised when the upload exceeds `MAX_FILE_SIZE`. -/
def errTooLarge : HttpError :=
  ⟨400, "File too large. Maximum size: 16MB".toList⟩

/-- The 400 raised when no meaningful text could be extracted. -/
def errNoText : HttpError :=
  ⟨400, "Could not extract meaningful text from the document".toList⟩

/-- The generic 500 from `extract_artist_info`'s outer `except Exception`
(the interpolated exception text is abstracted away). -/
def errProcessing : HttpError :=
  ⟨500, "Error processing file".toList⟩

/-- The size guard `if file.size and file.size > settings.MAX_FILE_SIZE`:
`file.size` is `Optional[int]`; `None` and `0` are falsy. -/
def sizeRejected (size : Option Int) : Bool :=
  match size with
  | none => false
  | some n => if n = 0 then false else decide (n > MAX_FILE_SIZE)

/-- `ArtistInfo(artist_name=..., summary=...).dict()`: the minimal pydantic
object built when validation of the raw data fails, with every other field
at its schema default (`src/schemas/artist_schemas.py`). -/
def minimalArtistInfoDict (name : PyStr) : Objd :=
  [("artist_name".toList, Json.str name),
   ("guru_name".toList, Json.null),
   ("gharana_details".toList, Json.null),
   ("biography".toList, Json.null),
   ("achievements".toList, Json.arr []),
   ("contact_details".toList, Json.null),
   ("summary".toList, Json.str ("Artist information for ".toList ++ name)),
   ("extraction_confidence".toList, Json.null),
   ("additional_notes".toList, Json.null)]

/-- Inputs and external-library behaviours of one
`ArtistController.extract_artist_info` call.  `ts` is the timestamp string
of `create_unique_filename`; `textResult` is the `extract_text` outcome
(`Sum.inl ()` = an exception from PyMuPDF/docTR); `validate` is pydantic
`ArtistInfo(**d).dict()` (`none` = `ValidationError`); `createdBy` models
`ObjectId(current_user["_id"])`; `newId` the inserted id's string form. -/
structure ExtractArgs where
  filename : PyStr
  size : Option Int
  ts : PyStr
  textResult : Sum Unit PyStr
  call : GeminiCall
  loads : Loads
  fa : FindAll
  validate : Objd → Option Objd
  createdBy : Json
  now : Json
  newId : PyStr

/-- `ArtistController.extract_artist_info`.  Result components: the HTTP
outcome (error or the JSON response), the document handed to
`artist_model.create_artist` (`none` when nothing was inserted), and the
path passed to `save_uploaded_file` (`none` when no file was ever saved;
the success path's `cleanup_temp_file` does not clear this record of the
save having happened). -/
def extract_artist_info (a : ExtractArgs) :
    (Sum HttpError Json) × Option Json × Option PyStr :=
  if !is_allowed_file a.filename then (Sum.inl errFileType, none, none)
  else if sizeRejected a.size then (Sum.inl errTooLarge, none, none)
  else
    let filename_artist_name := extract_artist_name_from_filename a.filename
    let saved_filename := a.ts ++ ['_'] ++ secure_filename a.filename
    let file_path := "uploads/".toList ++ saved_filename
    match a.textResult with
    | Sum.inl _ => (Sum.inl errProcessing, none, some file_path)
    | Sum.inr extracted_text =>
      if extracted_text.isEmpty || decide ((pyStripWs extracted_text).length < 10) then
        (Sum.inl errNoText, none, some file_path)
      else
        let raw0 := extract_with_gemini filename_artist_name extracted_text
          a.call a.loads a.fa
        let raw :=
          if !truthyAt raw0 ("artist_name".toList) then
            setKey raw0 ("artist_name".toList) (Json.str filename_artist_name)
          else raw0
        let validated :=
          match a.validate raw with
          | some d => d
          | none => minimalArtistInfoDict filename_artist_name
        let artistDict :=
          if !truthyAt validated ("artist_name".toList) then
            setKey validated ("artist_name".toList) (Json.str filename_artist_name)
          else validated
        let artist_doc : Objd :=
          [("artist_info".toList, Json.obj artistDict),
           ("original_filename".toList, Json.str a.filename),
           ("saved_filename".toList, Json.str saved_filename),
           ("extracted_text".toList, Json.str extracted_text),
           ("extraction_status".toList, Json.str ("completed".toList)),
           ("created_by".toList, a.createdBy)]
        let inserted :=
          setKey (setKey artist_doc ("created_at".toList) a.now)
            ("updated_at".toList) a.now
        let preview :=
          if decide (200 < extracted_text.length) then
            extracted_text.take 200 ++ "...".toList
          else extracted_text
        let response := Json.obj
          [("success".toList, Json.bool true),
           ("artist_id".toList, Json.str a.newId),
           ("filename".toList, Json.str a.filename),
           ("guaranteed_artist_name".toList, Json.str filename_artist_name),
           ("extracted_text_length".toList, Json.num extracted_text.length),
           ("extracted_text_preview".toList, Json.str preview),
           ("artist_info".toList, Json.obj artistDict),
           ("message".toList, Json.str
             ("Artist information extracted successfully with GUARANTEED artist name".toList))]
        (Sum.inr response, some (Json.obj inserted), some file_path)

/-- The 404 raised by `enhance_artist_contact_details` for a missing
artist. -/
def errArtistNotFound : HttpError := ⟨404, "Artist not found".toList⟩

/-- The 503 raised when the AI enhancement service is unavailable. -/
def errAiUnavailable : HttpError :=
  ⟨503, "AI enhancement service not available".toList⟩

/-- The 500 raised on a `JSONDecodeError` during enhancement. -/
def errParseAi : HttpError := ⟨500, "Failed to parse AI response".toList⟩

/-- The generic 500 of `enhance_artist_contact_details`'s outer
`except Exception` (interpolated exception text abstracted away). -/
def errEnhancing : HttpError := ⟨500, "Error enhancing artist data".toList⟩

/-- The 500 raised when `artist_model.update_artist` reports no modified
document. -/
def errSaveEnhanced : HttpError := ⟨500, "Failed to save enhanced data".toList⟩

/-- Inputs and external-library behaviours of one
`ArtistController.enhance_artist_contact_details` call.  `doc` is
`artist_model.find_by_id`'s result; `validate` is pydantic
`ArtistInfo(**d).dict()`; `updateOk` is `update_artist`'s
`modified_count > 0`. -/
structure EnhanceArgs where
  artistId : PyStr
  doc : Option Objd
  call : GeminiCall
  loads : Loads
  validate : Objd → Option Objd
  updateOk : Bool
  now : Json

/-- `ArtistController.enhance_artist_contact_details`.  Result components:
the HTTP outcome, and the `artist_info` value written to the database by
`update_artist` (`none` when the update did not modify a document).  Note
the absence of any artist-name fallback on this path: the validated LLM
response is stored as-is. -/
def enhance_artist_contact_details (a : EnhanceArgs) :
    (Sum HttpError Json) × Option Json :=
  match a.doc with
  | none => (Sum.inl errArtistNotFound, none)
  | some doc =>
    match getKeyD doc ("artist_info".toList) (Json.obj []) with
    | Json.obj existingKvs =>
      let artist_name :=
        getKeyD existingKvs ("artist_name".toList)
          (Json.str ("Unknown Artist".toList))
      match a.call with
      | GeminiCall.unavailable => (Sum.inl errAiUnavailable, none)
      | GeminiCall.failure => (Sum.inl errEnhancing, none)
      | GeminiCall.success raw =>
        let content := pyStripWs raw
        let json_str := select_json_candidate content
        match a.loads json_str with
        | none => (Sum.inl errParseAi, none)
        | some enhanced_data =>
          let validated :=
            match enhanced_data with
            | Json.obj kvs => a.validate kvs
            | _ => none
          let enhancedInfo :=
            match validated with
            | some d => some d
            | none => a.validate existingKvs
          match enhancedInfo with
          | none => (Sum.inl errEnhancing, none)
          | some info =>
            if a.updateOk then
              (Sum.inr (Json.obj
                [("success".toList, Json.bool true),
                 ("artist_id".toList, Json.str a.artistId),
                 ("artist_name".toList, artist_name),
                 ("enhanced_data".toList, Json.obj info),
                 ("message".toList, Json.str
                   ("Artist contact details enhanced successfully".toList))]),
               some (Json.obj info))
            else (Sum.inl errSaveEnhanced, none)
    | _ => (Sum.inl errEnhancing, none)

/-- `create_paginated_response` (`src/utils/response_utils.py`); Python `//`
is floor division (`Int.fdiv`). -/
def create_paginated_response (data : List Json) (total page limit : Int) :
    Objd :=
  [("success".toList, Json.bool true),
   ("total".toList, Json.num total),
   ("page".toList, Json.num page),
   ("limit".toList, Json.num limit),
   ("total_pages".toList, Json.num (Int.fdiv (total + limit - 1) limit)),
   ("data".toList, Json.arr data)]

/-- `ArtistController.list_artists`: the response dict around the database
fetch.  `total` is `artist_model.count_documents`' result and `artists` the
fetched page after ObjectId stringification (both external to the response
construction being verified). -/
def list_artists (page limit : Int) (total : Int) (artists : List Json) :
    Objd :=
  [("success".toList, Json.bool true),
   ("total".toList, Json.num total),
   ("page".toList, Json.num page),
   ("limit".toList, Json.num limit),
   ("total_pages".toList, Json.num (Int.fdiv (total + limit - 1) limit)),
   ("artists".toList, Json.arr artists)]

/-- The public paths skipped by the auth middleware. -/
def public_paths : List PyStr :=
  ["/".toList, "/health".toList, "/docs".toList, "/redoc".toList,
   "/openapi.json".toList]

/-- `fastapi.security.utils.get_authorization_scheme_param`: an absent or
empty header yields `("", "")`; otherwise partition on the first space. -/
def get_authorization_scheme_param (authorization : Option PyStr) :
    PyStr × PyStr :=
  match authorization with
  | none => ([], [])
  | some a =>
    if a.isEmpty then ([], [])
    else
      match findCharIdx a ' ' with
      | some i => (a.take i, a.drop (i + 1))
      | none => (a, [])

/-- `if not authorization`: the header is absent or empty. -/
def authMissing (authorization : Option PyStr) : Bool :=
  match authorization with
  | none => true
  | some a => a.isEmpty

/-- Modelled from the spec: `verify_token` lives in
`src/utils/auth_utils.py`, which is absent from the sources; per the spec's
JWT-based authentication wiring (and the duplicate in `Backend/main.py`), it
returns the token's payload dict and raises HTTP 401 when the presented JWT
fails verification — so it is an oracle `PyStr → Option Objd` with `none`
meaning that 401. -/
abbrev VerifyToken := PyStr → Option Objd

/-- `user_model.find_by_id`, an oracle from the payload's `user_id` value to
the user document. -/
abbrev FindUser := Json → Option Json

/-- Outcome of the middleware: the request is forwarded (with the user
attached to `request.state`, when one was found) or rejected. -/
inductive MwOutcome where
  | forwarded (user : Option Json) : MwOutcome
  | rejected (e : HttpError) : MwOutcome

/-- The 401 raised by the middleware for unauthenticated requests. -/
def errNotAuthenticated : HttpError := ⟨401, "Not authenticated".toList⟩

/-- The spec-modelled 401 re-raised from `verify_token` (its detail is the
verifier's own message, abstracted away). -/
def errInvalidToken : HttpError := ⟨401, "Invalid token".toList⟩

/-- `auth_middleware` (`src/middlewares/auth_middleware.py`). -/
def auth_middleware (path : PyStr) (authorization : Option PyStr)
    (verify : VerifyToken) (findUser : FindUser) : MwOutcome :=
  if public_paths.contains path then MwOutcome.forwarded none
  else
    let sp := get_authorization_scheme_param authorization
    if authMissing authorization || !(pyLower sp.1 = "bearer".toList : Bool) then
      if listStartsWith ("/auth/".toList) path then MwOutcome.forwarded none
      else MwOutcome.rejected errNotAuthenticated
    else
      match verify sp.2 with
      | none =>
        if listStartsWith ("/auth/".toList) path then MwOutcome.forwarded none
        else MwOutcome.rejected errInvalidToken
      | some payload =>
        match getKey payload ("user_id".toList) with
        | some uid =>
          if pyTruthy uid then MwOutcome.forwarded (findUser uid)
          else MwOutcome.forwarded none
        | none => MwOutcome.forwarded none

/-- `d["artist_info"]`-style lookup on a JSON value (for statements about
stored documents). -/
def getKeyJ (v : Json) (key : PyStr) : Option Json :=
  match v with
  | Json.obj kvs => getKey kvs key
  | _ => none

/-- The claim's own wording of the extension gate: the filename has an
extension (text after the last dot, lower-cased) and it belongs to the
allowed set. -/
def extensionAllowedClaim (filename : PyStr) : Bool :=
  match rfindCharIdx filename '.' with
  | some i => ALLOWED_EXTENSIONS.contains (pyLower (filename.drop (i + 1)))
  | none => false

/-- The character class the sanitised filename is claimed to stay inside:
ASCII letters, digits, dots and underscores. -/
def allowedFilenameChar (c : Char) : Bool := c.isAlphanum || c = '.' || c = '_'

/-- A Gemini reply for the enhancement counterexample: a JSON object with
only a summary and no artist name. -/
def c1LlmResponse : PyStr := "\x7b\"summary\": \"x\"\x7d".toList

/-- What pydantic `ArtistInfo(summary="x").dict()` yields: every other
field at its schema default, `artist_name` equal to `None`. -/
def c1PydanticDict : Objd :=
  [("artist_name".toList, Json.null),
   ("guru_name".toList, Json.null),
   ("gharana_details".toList, Json.null),
   ("biography".toList, Json.null),
   ("achievements".toList, Json.arr []),
   ("contact_details".toList, Json.null),
   ("summary".toList, Json.str ("x".toList)),
   ("extraction_confidence".toList, Json.null),
   ("additional_notes".toList, Json.null)]

/-- A concrete enhancement run: the stored artist has a name, Gemini
answers with a JSON object lacking one, `json.loads` and pydantic behave
as the real libraries would on these values, and the update succeeds. -/
def c1EnhanceArgs : EnhanceArgs where
  artistId := "64b1".toList
  doc := some [("artist_info".toList,
    Json.obj [("artist_name".toList, Json.str ("Pandit Ravi".toList))])]
  call := GeminiCall.success c1LlmResponse
  loads := fun s =>
    if s = c1LlmResponse then
      some (Json.obj [("summary".toList, Json.str ("x".toList))])
    else none
  validate := fun kvs =>
    match kvs with
    | [(k, Json.str v)] =>
      if k = "summary".toList ∧ v = "x".toList then some c1PydanticDict else none
    | _ => none
  updateOk := true
  now := Json.null

/-- A concrete successful upload run exercising the fallback extraction
path (Gemini unavailable, regex oracle finds nothing, pydantic accepts the
dict unchanged). -/
def c1ExtractArgs : ExtractArgs where
  filename := "Ravi_Shankar.pdf".toList
  size := none
  ts := "20240101_120000".toList
  textResult := Sum.inr
    ("Ravi Shankar was a sitar maestro of the Maihar gharana tradition.".toList)
  call := GeminiCall.unavailable
  loads := fun _ => none
  fa := fun _ _ _ => []
  validate := fun kvs => some kvs
  createdBy := Json.str ("u1".toList)
  now := Json.null
  newId := "id1".toList

/-- An upload with a disallowed extension (every oracle inert). -/
def c2BadArgs : ExtractArgs where
  filename := "malware.exe".toList
  size := none
  ts := []
  textResult := Sum.inl ()
  call := GeminiCall.unavailable
  loads := fun _ => none
  fa := fun _ _ _ => []
  validate := fun _ => none
  createdBy := Json.null
  now := Json.null
  newId := []

/-- An upload with an allowed extension. -/
def c2GoodArgs : ExtractArgs where
  filename := "profile.pdf".toList
  size := none
  ts := []
  textResult := Sum.inl ()
  call := GeminiCall.unavailable
  loads := fun _ => none
  fa := fun _ _ _ => []
  validate := fun _ => none
  createdBy := Json.null
  now := Json.null
  newId := []

/-- An upload whose extraction yields too little text. -/
def c7Args : ExtractArgs where
  filename := "a.pdf".toList
  size := none
  ts := "t".toList
  textResult := Sum.inr ("short".toList)
  call := GeminiCall.unavailable
  loads := fun _ => none
  fa := fun _ _ _ => []
  validate := fun _ => none
  createdBy := Json.null
  now := Json.null
  newId := []

/-- A token verifier that rejects every token. -/
def rejectAllTokens : VerifyToken := fun _ => none

/-- A user lookup that finds nobody. -/
def findNobody : FindUser := fun _ => none

/-- A `json.loads` oracle that always parses to an object carrying a wrong
artist name. -/
def c9Loads : Loads :=
  fun _ => some (Json.obj [("artist_name".toList, Json.str ("Wrong".toList))])

theorem length_dropWhile_le' {α : Type} (p : α → Bool) (l : List α) :
    (l.dropWhile p).length ≤ l.length :=
  (List.dropWhile_sublist p).length_le

theorem length_pyStripWs_le (s : PyStr) : (pyStripWs s).length ≤ s.length := by
  unfold pyStripWs
  calc ((s.dropWhile isPyWs).reverse.dropWhile isPyWs).reverse.length
      = ((s.dropWhile isPyWs).reverse.dropWhile isPyWs).length :=
        List.length_reverse _
    _ ≤ (s.dropWhile isPyWs).reverse.length := length_dropWhile_le' _ _
    _ = (s.dropWhile isPyWs).length := List.length_reverse _
    _ ≤ s.length := length_dropWhile_le' _ _

theorem extract_name_two_le (f : PyStr) :
    2 ≤ (extract_artist_name_from_filename f).length := by
  unfold extract_artist_name_from_filename
  dsimp only
  split
  · decide
  · next h =>
    simp only [Bool.or_eq_true, List.isEmpty_iff, decide_eq_true_eq, not_or] at h
    have h2 : ¬ (pyStripWs (cleanedFilenameName f)).length < 2 := h.2
    have := length_pyStripWs_le (cleanedFilenameName f)
    omega

theorem extract_name_not_empty (f : PyStr) :
    (extract_artist_name_from_filename f).isEmpty = false := by
  have := extract_name_two_le f
  cases hf : extract_artist_name_from_filename f with
  | nil => rw [hf] at this; simp at this
  | cons c rest => rfl

theorem all_of_sublist {α : Type} {l₁ l₂ : List α} {p : α → Bool}
    (h : l₁.Sublist l₂) (hall : l₂.all p = true) : l₁.all p = true := by
  rw [List.all_eq_true] at *
  exact fun x hx => hall x (h.subset hx)

theorem all_pyStripWs {s : PyStr} {p : Char → Bool} (h : s.all p = true) :
    (pyStripWs s).all p = true := by
  unfold pyStripWs
  rw [List.all_reverse]
  exact all_of_sublist (List.dropWhile_sublist _)
    (by rw [List.all_reverse]; exact all_of_sublist (List.dropWhile_sublist _) h)

theorem all_pyStripChars {s chars : PyStr} {p : Char → Bool}
    (h : s.all p = true) : (pyStripChars chars s).all p = true := by
  unfold pyStripChars
  rw [List.all_reverse]
  exact all_of_sublist (List.dropWhile_sublist _)
    (by rw [List.all_reverse]; exact all_of_sublist (List.dropWhile_sublist _) h)

theorem keep_not_sep {c : Char} (hk : keepClass c = true) (hs : sepClass c = false) :
    allowedFilenameChar c = true := by
  unfold keepClass at hk
  unfold sepClass at hs
  unfold allowedFilenameChar
  simp only [Bool.or_eq_true, decide_eq_true_eq] at hk
  simp only [Bool.or_eq_false_iff, decide_eq_false_iff_not] at hs
  obtain ⟨⟨hw, hu⟩, hh⟩ := hs
  simp only [Bool.or_eq_true, decide_eq_true_eq]
  rcases hk with (((h1 | h2) | h3) | h4) | h5
  · exact Or.inl (Or.inl h1)
  · rw [hw] at h2; cases h2
  · exact Or.inl (Or.inr h3)
  · exact Or.inr h4
  · exact absurd h5 hh

theorem all_collapseSeps : ∀ (l : PyStr) (b : Bool), l.all keepClass = true →
    (collapseSeps l b).all allowedFilenameChar = true := by
  intro l
  induction l with
  | nil => intro b _; rfl
  | cons c t ih =>
    intro b h
    rw [List.all_cons, Bool.and_eq_true] at h
    unfold collapseSeps
    split
    · split
      · exact ih true h.2
      · rw [List.all_cons, Bool.and_eq_true]
        exact ⟨by decide, ih true h.2⟩
    · next hsc =>
      rw [List.all_cons, Bool.and_eq_true]
      refine ⟨keep_not_sep h.1 ?_, ih false h.2⟩
      revert hsc; cases sepClass c <;> simp

theorem head?_dropWhile_not {p : Char → Bool} : ∀ (l : PyStr) (c : Char),
    (l.dropWhile p).head? = some c → p c = false := by
  intro l
  induction l with
  | nil => intro c h; simp [List.dropWhile] at h
  | cons a t ih =>
    intro c h
    rw [List.dropWhile_cons] at h
    by_cases ha : p a = true
    · rw [if_pos ha] at h; exact ih c h
    · rw [Bool.not_eq_true] at ha
      rw [if_neg (by rw [ha]; exact Bool.false_ne_true)] at h
      simp only [List.head?_cons, Option.some.injEq] at h
      rw [← h]; exact ha

theorem getLast?_dropWhile_of_ne_nil {p : Char → Bool} : ∀ (l : PyStr),
    l.dropWhile p ≠ [] → (l.dropWhile p).getLast? = l.getLast? := by
  intro l
  induction l with
  | nil => intro h; simp [List.dropWhile] at h
  | cons a t ih =>
    intro h
    rw [List.dropWhile_cons] at h ⊢
    by_cases ha : p a = true
    · rw [if_pos ha] at h ⊢
      have ht : t ≠ [] := by
        intro he; rw [he] at h; simp [List.dropWhile] at h
      rw [ih h]
      obtain ⟨b, t', rfl⟩ : ∃ b t', t = b :: t' := by
        cases t with
        | nil => exact absurd rfl ht
        | cons b t' => exact ⟨b, t', rfl⟩
      rw [List.getLast?_cons_cons]
    · rw [if_neg ha] at h ⊢

theorem contains_underscore_false {c : Char}
    (h : (['_'] : PyStr).contains c = false) : ¬ c = '_' := by
  simp only [List.contains, List.elem_eq_mem, List.mem_singleton,
    decide_eq_false_iff_not] at h
  exact h

theorem getKey_setKey_self : ∀ (l : Objd) (k : PyStr) (v : Json),
    getKey (setKey l k v) k = some v := by
  intro l k v
  induction l with
  | nil => simp [setKey, getKey]
  | cons kv rest ih =>
    obtain ⟨k', w⟩ := kv
    unfold setKey
    by_cases h : k' = k
    · rw [if_pos h]
      unfold getKey
      rw [if_pos h]
    · rw [if_neg h]
      unfold getKey
      rw [if_neg h]
      exact ih

theorem getKey_setKey_ne : ∀ (l : Objd) (k key : PyStr) (v : Json),
    k ≠ key → getKey (setKey l k v) key = getKey l key := by
  intro l k key v hne
  induction l with
  | nil =>
    unfold setKey getKey
    rw [if_neg hne]
    rfl
  | cons kv rest ih =>
    obtain ⟨k', w⟩ := kv
    unfold setKey
    by_cases h : k' = k
    · rw [if_pos h]
      unfold getKey
      rw [h]
      by_cases h2 : k = key
      · exact absurd h2 hne
      · rw [if_neg h2, if_neg h2]
    · rw [if_neg h]
      unfold getKey
      by_cases h2 : k' = key
      · rw [if_pos h2, if_pos h2]
      · rw [if_neg h2, if_neg h2]
        exact ih

theorem truthyAt_true_elim {d : Objd} {key : PyStr} (h : truthyAt d key = true) :
    ∃ v, getKey d key = some v ∧ pyTruthy v = true := by
  unfold truthyAt at h
  cases hg : getKey d key with
  | none => rw [hg] at h; cases h
  | some v => rw [hg] at h; exact ⟨v, rfl, h⟩

theorem getKey_fallback_artist_name (n t : PyStr) (fa : FindAll) :
    getKey (create_fallback_data n t fa) ("artist_name".toList) =
      some (Json.str n) := by
  unfold create_fallback_data
  dsimp only
  unfold getKey
  rw [if_pos rfl]

theorem patched_name_ok (validated : Objd) (fname : PyStr)
    (hf : fname.isEmpty = false) :
    ∃ v, getKey (if !truthyAt validated ("artist_name".toList) then
            setKey validated ("artist_name".toList) (Json.str fname)
          else validated) ("artist_name".toList) = some v ∧ pyTruthy v = true := by
  by_cases ht : truthyAt validated ("artist_name".toList) = true
  · rw [ht]
    simp only [Bool.not_true, Bool.false_eq_true, if_false]
    exact truthyAt_true_elim ht
  · rw [Bool.not_eq_true] at ht
    rw [ht]
    simp only [Bool.not_false, if_true]
    refine ⟨Json.str fname, getKey_setKey_self _ _ _, ?_⟩
    simp [pyTruthy, hf]

theorem doc_artist_info (P : Objd) (fn sf et : PyStr) (cb tnow : Json) :
    getKeyJ (Json.obj (setKey (setKey
      [("artist_info".toList, Json.obj P),
       ("original_filename".toList, Json.str fn),
       ("saved_filename".toList, Json.str sf),
       ("extracted_text".toList, Json.str et),
       ("extraction_status".toList, Json.str ("completed".toList)),
       ("created_by".toList, cb)] ("created_at".toList) tnow)
      ("updated_at".toList) tnow)) ("artist_info".toList) = some (Json.obj P) := by
  unfold getKeyJ
  dsimp only
  rw [getKey_setKey_ne _ _ _ _ (by decide), getKey_setKey_ne _ _ _ _ (by decide)]
  unfold getKey
  rw [if_pos rfl]

theorem is_allowed_eq_claim (f : PyStr) :
    is_allowed_file f = extensionAllowedClaim f := by
  unfold is_allowed_file extensionAllowedClaim get_file_extension
  cases hr : rfindCharIdx f '.' with
  | none => rfl
  | some i =>
    dsimp only
    by_cases he : (pyLower (f.drop (i + 1))).isEmpty = true
    · rw [if_pos he]
      have : pyLower (f.drop (i + 1)) = [] := List.isEmpty_iff.mp he
      rw [this]
      decide
    · rw [if_neg he]

theorem fdiv_is_ceil (total limit : Int) (_h1 : 0 ≤ total) (h2 : 1 ≤ limit) :
    Int.fdiv (total + limit - 1) limit = ⌈(total : ℚ) / (limit : ℚ)⌉ := by
  have hl : (0 : Int) < limit := h2
  have hq : (0 : ℚ) < (limit : ℚ) := by exact_mod_cast hl
  rw [Int.fdiv_eq_ediv _ (le_of_lt hl)]
  symm
  rw [Int.ceil_eq_iff]
  set d : Int := (total + limit - 1) / limit with hd
  have hmod := Int.ediv_add_emod (total + limit - 1) limit
  have hmn : 0 ≤ (total + limit - 1) % limit := Int.emod_nonneg _ (ne_of_gt hl)
  have hmu : (total + limit - 1) % limit < limit := Int.emod_lt_of_pos _ hl
  have hlt : (d - 1) * limit < total := by nlinarith [hmod]
  have hle : total ≤ d * limit := by nlinarith [hmod]
  constructor
  · rw [lt_div_iff₀ hq]
    exact_mod_cast hlt
  · rw [div_le_iff₀ hq]
    exact_mod_cast hle

/-- Claim C1, counterexample: a concrete
`enhance_artist_contact_details` run succeeds (HTTP success response) while
writing an `artist_info` whose `artist_name` is null — the Gemini reply
parsed to an object without a usable name and no filename fallback was
applied, contradicting the claim for this controller operation. -/
theorem c1_enhance_writes_null_artist_name :
    (enhance_artist_contact_details c1EnhanceArgs).2 =
      some (Json.obj c1PydanticDict) ∧
    getKey c1PydanticDict ("artist_name".toList) = some Json.null ∧
    (∃ r, (enhance_artist_contact_details c1EnhanceArgs).1 = Sum.inr r) :=
  ⟨rfl, rfl, ⟨_, rfl⟩⟩

/-- Claim C1 (amended): every artist record written by the upload workflow
`extract_artist_info` stores a truthy (non-null, non-empty)
`artist_info.artist_name`, for every behaviour of the Gemini, `json.loads`,
regex and pydantic oracles; the enhancement path does not re-establish this
invariant (see the counterexample). -/
theorem c1_upload_artist_name_never_empty (a : ExtractArgs) (d : Json)
    (h : (extract_artist_info a).2.1 = some d) :
    ∃ info v, getKeyJ d ("artist_info".toList) = some (Json.obj info) ∧
      getKey info ("artist_name".toList) = some v ∧ pyTruthy v = true := by
  unfold extract_artist_info at h
  dsimp only at h
  split at h
  · simp at h
  · split at h
    · simp at h
    · split at h
      · simp at h
      · split at h
        · simp at h
        · simp only [Option.some.injEq] at h
          subst h
          obtain ⟨v, hv, htv⟩ := patched_name_ok _
            (extract_artist_name_from_filename a.filename)
            (extract_name_not_empty a.filename)
          exact ⟨_, v, doc_artist_info _ _ _ _ _ _, hv, htv⟩

/-- Claim C1 witness: the amended theorem applied to a concrete successful
upload run. -/
theorem c1_upload_artist_name_never_empty_witness :
    ∃ info v,
      getKeyJ (((extract_artist_info c1ExtractArgs).2.1).getD Json.null)
        ("artist_info".toList) = some (Json.obj info) ∧
      getKey info ("artist_name".toList) = some v ∧ pyTruthy v = true :=
  c1_upload_artist_name_never_empty c1ExtractArgs
    (((extract_artist_info c1ExtractArgs).2.1).getD Json.null) (by rfl)

/-- Claim C2: the upload gate — `is_allowed_file` coincides with the claim's
description (no extension, or lower-cased text after the last dot outside
the allowed set, is rejected); a disallowed filename makes
`extract_artist_info` return HTTP 400 with nothing saved and nothing
inserted; an allowed filename never produces that file-type error. -/
theorem c2_extension_gate (a : ExtractArgs) :
    (is_allowed_file a.filename = extensionAllowedClaim a.filename) ∧
    (is_allowed_file a.filename = false →
      extract_artist_info a = (Sum.inl errFileType, none, none)) ∧
    (is_allowed_file a.filename = true →
      (extract_artist_info a).1 ≠ Sum.inl errFileType) := by
  refine ⟨is_allowed_eq_claim a.filename, ?_, ?_⟩
  · intro h
    unfold extract_artist_info
    rw [h]
    rfl
  · intro h
    unfold extract_artist_info
    rw [h]
    dsimp only
    split
    · next hb => simp at hb
    · split
      · intro heq
        simp only [Sum.inl.injEq] at heq
        exact absurd heq (by decide)
      · split
        · intro heq
          simp only [Sum.inl.injEq] at heq
          exact absurd heq (by decide)
        · split
          · intro heq
            simp only [Sum.inl.injEq] at heq
            exact absurd heq (by decide)
          · simp

/-- Claim C2 witness: the gate theorem applied to a disallowed `.exe`
upload and an allowed `.pdf` upload. -/
theorem c2_extension_gate_witness :
    (extract_artist_info c2BadArgs = (Sum.inl errFileType, none, none)) ∧
    ((extract_artist_info c2GoodArgs).1 ≠ Sum.inl errFileType) :=
  ⟨(c2_extension_gate c2BadArgs).2.1 (by rfl),
   (c2_extension_gate c2GoodArgs).2.2 (by rfl)⟩

/-- Claim C3: the JSON-recovery step of both Gemini parse sites selects the
candidate exactly as the claim words it — fenced block when "```json" is
present and the regex matches, otherwise the first-brace/last-brace slice
when `rfind` makes a non-empty span, otherwise the whole string. -/
theorem c3_json_candidate_selection (content : PyStr) :
    select_json_candidate content = select_json_candidate_claim content := by
  unfold select_json_candidate select_json_candidate_claim
  by_cases hc : containsSub jsonFenceTag content = true
  · rw [hc]
    cases hs : searchFence content with
    | some g => simp [hs]
    | none => simp [hs, braceSlice]
  · rw [Bool.not_eq_true] at hc
    rw [hc]
    simp [braceSlice]

/-- Claim C4: whenever Gemini is unavailable, the call raises, the reply
fails to parse as JSON, or the parsed value is not a dict (the assignment
raises and the generic handler catches it), `extract_with_gemini` returns
`create_fallback_data` of the same artist name and document text instead of
raising. -/
theorem c4_gemini_failure_fallback (name text : PyStr) (loads : Loads)
    (fa : FindAll) :
    (extract_with_gemini name text GeminiCall.unavailable loads fa =
        create_fallback_data name text fa) ∧
    (extract_with_gemini name text GeminiCall.failure loads fa =
        create_fallback_data name text fa) ∧
    (∀ raw, loads (select_json_candidate (pyStripWs raw)) = none →
        extract_with_gemini name text (GeminiCall.success raw) loads fa =
          create_fallback_data name text fa) ∧
    (∀ raw d, loads (select_json_candidate (pyStripWs raw)) = some d →
        (∀ kvs, d ≠ Json.obj kvs) →
        extract_with_gemini name text (GeminiCall.success raw) loads fa =
          create_fallback_data name text fa) := by
  refine ⟨rfl, rfl, ?_, ?_⟩
  · intro raw h
    unfold extract_with_gemini
    dsimp only
    rw [h]
  · intro raw d h hno
    unfold extract_with_gemini
    dsimp only
    rw [h]
    cases d with
    | obj kvs => exact absurd rfl (hno kvs)
    | null => rfl
    | bool b => rfl
    | num n => rfl
    | str s => rfl
    | arr l => rfl

/-- Claim C4 witness: the fallback theorem applied to a reply that fails to
parse and to a reply that parses to a non-dict. -/
theorem c4_gemini_failure_fallback_witness :
    (extract_with_gemini ("A".toList) ("doc".toList)
        (GeminiCall.success ("oops".toList)) (fun _ => none) (fun _ _ _ => []) =
      create_fallback_data ("A".toList) ("doc".toList) (fun _ _ _ => [])) ∧
    (extract_with_gemini ("A".toList) ("doc".toList)
        (GeminiCall.success ("5".toList)) (fun _ => some (Json.num 5))
        (fun _ _ _ => []) =
      create_fallback_data ("A".toList) ("doc".toList) (fun _ _ _ => [])) :=
  ⟨(c4_gemini_failure_fallback ("A".toList) ("doc".toList) (fun _ => none)
      (fun _ _ _ => [])).2.2.1 ("oops".toList) rfl,
   (c4_gemini_failure_fallback ("A".toList) ("doc".toList)
      (fun _ => some (Json.num 5)) (fun _ _ _ => [])).2.2.2 ("5".toList)
      (Json.num 5) rfl (by intro kvs h; cases h)⟩

/-- Claim C5: requests to the listed public paths are always forwarded with
no token check; for any other path not under "/auth/", a missing/empty
Authorization header or a scheme other than case-insensitive "bearer" is
rejected with HTTP 401, and so is a bearer token the verifier refuses. -/
theorem c5_auth_middleware_gate (path : PyStr) (authorization : Option PyStr)
    (verify : VerifyToken) (findUser : FindUser) :
    (public_paths.contains path = true →
      auth_middleware path authorization verify findUser =
        MwOutcome.forwarded none) ∧
    (public_paths.contains path = false →
      listStartsWith ("/auth/".toList) path = false →
      ((authMissing authorization = true ∨
          pyLower (get_authorization_scheme_param authorization).1 ≠
            "bearer".toList) →
        ∃ e, auth_middleware path authorization verify findUser =
          MwOutcome.rejected e ∧ e.status = 401) ∧
      (authMissing authorization = false →
        pyLower (get_authorization_scheme_param authorization).1 =
          "bearer".toList →
        verify (get_authorization_scheme_param authorization).2 = none →
        ∃ e, auth_middleware path authorization verify findUser =
          MwOutcome.rejected e ∧ e.status = 401)) := by
  constructor
  · intro h
    unfold auth_middleware
    rw [h]
    rfl
  · intro hp ha
    constructor
    · intro hbad
      unfold auth_middleware
      rw [hp]
      dsimp only
      have hcond : (authMissing authorization ||
          !(pyLower (get_authorization_scheme_param authorization).1 =
            "bearer".toList : Bool)) = true := by
        rcases hbad with hb | hb
        · rw [hb]; rfl
        · simp only [Bool.or_eq_true, Bool.not_eq_true', decide_eq_false_iff_not]
          exact Or.inr hb
      rw [hcond, ha]
      exact ⟨errNotAuthenticated, rfl, rfl⟩
    · intro hm hs hv
      unfold auth_middleware
      rw [hp]
      dsimp only
      have hcond : (authMissing authorization ||
          !(pyLower (get_authorization_scheme_param authorization).1 =
            "bearer".toList : Bool)) = false := by
        simp [hm, hs]
      rw [hcond, hv, ha]
      exact ⟨errInvalidToken, rfl, rfl⟩

/-- Claim C5 witness: the middleware theorem applied to a public path, a
protected path with no header, and a protected path whose bearer token the
verifier rejects. -/
theorem c5_auth_middleware_gate_witness :
    (auth_middleware ("/health".toList) none rejectAllTokens findNobody =
      MwOutcome.forwarded none) ∧
    (∃ e, auth_middleware ("/artists".toList) none rejectAllTokens findNobody =
      MwOutcome.rejected e ∧ e.status = 401) ∧
    (∃ e, auth_middleware ("/artists".toList) (some ("Bearer abc".toList))
        rejectAllTokens findNobody = MwOutcome.rejected e ∧ e.status = 401) :=
  ⟨(c5_auth_middleware_gate ("/health".toList) none rejectAllTokens
      findNobody).1 (by decide),
   ((c5_auth_middleware_gate ("/artists".toList) none rejectAllTokens
      findNobody).2 (by decide) (by decide)).1 (Or.inl rfl),
   ((c5_auth_middleware_gate ("/artists".toList) (some ("Bearer abc".toList))
      rejectAllTokens findNobody).2 (by decide) (by decide)).2 rfl (by decide)
      rfl⟩

/-- Claim C6: for `total ≥ 0` and `limit ≥ 1`, both
`create_paginated_response` and `list_artists` report `total_pages` equal to
the ceiling of `total / limit` (computed as `(total + limit - 1) // limit`)
and echo `page` and `limit` unchanged. -/
theorem c6_pagination_totals (data artists : List Json)
    (total page limit : Int) (h1 : 0 ≤ total) (h2 : 1 ≤ limit) :
    getKey (create_paginated_response data total page limit)
        ("total_pages".toList) = some (Json.num ⌈(total : ℚ) / (limit : ℚ)⌉) ∧
    getKey (list_artists page limit total artists) ("total_pages".toList) =
      some (Json.num ⌈(total : ℚ) / (limit : ℚ)⌉) ∧
    getKey (create_paginated_response data total page limit) ("page".toList) =
      some (Json.num page) ∧
    getKey (create_paginated_response data total page limit) ("limit".toList) =
      some (Json.num limit) ∧
    getKey (list_artists page limit total artists) ("page".toList) =
      some (Json.num page) ∧
    getKey (list_artists page limit total artists) ("limit".toList) =
      some (Json.num limit) := by
  have hc : Int.fdiv (total + limit - 1) limit = ⌈(total : ℚ) / (limit : ℚ)⌉ :=
    fdiv_is_ceil total limit h1 h2
  refine ⟨?_, ?_, rfl, rfl, rfl, rfl⟩
  · show some (Json.num (Int.fdiv (total + limit - 1) limit)) = _
    rw [hc]
  · show some (Json.num (Int.fdiv (total + limit - 1) limit)) = _
    rw [hc]

/-- Claim C6 witness: the pagination theorem at `total = 7`, `page = 2`,
`limit = 3`. -/
theorem c6_pagination_totals_witness :
    getKey (create_paginated_response [] 7 2 3) ("total_pages".toList) =
      some (Json.num ⌈(7 : ℚ) / (3 : ℚ)⌉) ∧
    getKey (list_artists 2 3 7 []) ("total_pages".toList) =
      some (Json.num ⌈(7 : ℚ) / (3 : ℚ)⌉) ∧
    getKey (create_paginated_response [] 7 2 3) ("page".toList) =
      some (Json.num 2) ∧
    getKey (create_paginated_response [] 7 2 3) ("limit".toList) =
      some (Json.num 3) ∧
    getKey (list_artists 2 3 7 []) ("page".toList) = some (Json.num 2) ∧
    getKey (list_artists 2 3 7 []) ("limit".toList) = some (Json.num 3) :=
  c6_pagination_totals [] [] 7 2 3 (by decide) (by decide)

/-- Claim C7: in the upload workflow, once text extraction returns an empty
or sub-10-character (stripped) text, the call fails with the HTTP 400
"no meaningful text" error and no artist document is handed to the
database. -/
theorem c7_no_write_on_empty_text (a : ExtractArgs) (t : PyStr)
    (h1 : is_allowed_file a.filename = true)
    (h2 : sizeRejected a.size = false)
    (h3 : a.textResult = Sum.inr t)
    (h4 : (t.isEmpty || decide ((pyStripWs t).length < 10)) = true) :
    (extract_artist_info a).1 = Sum.inl errNoText ∧
      (extract_artist_info a).2.1 = none := by
  unfold extract_artist_info
  rw [h1, h2, h3]
  dsimp only
  rw [h4]
  exact ⟨rfl, rfl⟩

/-- Claim C7 witness: the theorem applied to an upload whose extracted
text is "short". -/
theorem c7_no_write_on_empty_text_witness :
    (extract_artist_info c7Args).1 = Sum.inl errNoText ∧
      (extract_artist_info c7Args).2.1 = none :=
  c7_no_write_on_empty_text c7Args ("short".toList) (by rfl) rfl rfl (by rfl)

/-- Claim C8: `extract_artist_name_from_filename` always returns at least 2
characters, and it is exactly the cleaned filename-derived name unless that
name is empty or shorter than 2 characters, in which case it is the
constant "Unknown Artist". -/
theorem c8_filename_name_guarantee (f : PyStr) :
    2 ≤ (extract_artist_name_from_filename f).length ∧
    extract_artist_name_from_filename f =
      (if (cleanedFilenameName f).isEmpty ||
          decide ((pyStripWs (cleanedFilenameName f)).length < 2) then
        "Unknown Artist".toList
      else cleanedFilenameName f) :=
  ⟨extract_name_two_le f, rfl⟩

/-- Claim C9: whenever the Gemini reply parses successfully as JSON, the
dict returned by `extract_with_gemini` carries `artist_name` equal to
exactly the artist-name argument — either by the explicit overwrite (dict
replies) or through the fallback data (non-dict replies). -/
theorem c9_artist_name_overwritten (name text raw : PyStr) (loads : Loads)
    (fa : FindAll) (d : Json)
    (h : loads (select_json_candidate (pyStripWs raw)) = some d) :
    getKey (extract_with_gemini name text (GeminiCall.success raw) loads fa)
      ("artist_name".toList) = some (Json.str name) := by
  unfold extract_with_gemini
  dsimp only
  rw [h]
  cases d with
  | obj kvs => exact getKey_setKey_self kvs _ _
  | null => exact getKey_fallback_artist_name name text fa
  | bool b => exact getKey_fallback_artist_name name text fa
  | num n => exact getKey_fallback_artist_name name text fa
  | str s => exact getKey_fallback_artist_name name text fa
  | arr l => exact getKey_fallback_artist_name name text fa

/-- Claim C9 witness: the theorem applied to a reply parsing to a dict that
asserts a wrong artist name. -/
theorem c9_artist_name_overwritten_witness :
    getKey (extract_with_gemini ("Ravi".toList) ("doc".toList)
        (GeminiCall.success ("x".toList)) c9Loads (fun _ _ _ => []))
      ("artist_name".toList) = some (Json.str ("Ravi".toList)) :=
  c9_artist_name_overwritten ("Ravi".toList) ("doc".toList) ("x".toList)
    c9Loads (fun _ _ _ => [])
    (Json.obj [("artist_name".toList, Json.str ("Wrong".toList))]) rfl

/-- Claim C10: `secure_filename` always returns a non-empty string of ASCII
letters, digits, dots and underscores (so no path separators, whitespace or
hyphens), with no underscore at either end, and the empty sanitisation
falls back to "unnamed_file". -/
theorem c10_secure_filename_safety (s : PyStr) :
    (secure_filename s).isEmpty = false ∧
    (secure_filename s).all allowedFilenameChar = true ∧
    decide ((secure_filename s).head? = some '_') = false ∧
    decide ((secure_filename s).getLast? = some '_') = false := by
  unfold secure_filename
  dsimp only
  split
  · exact ⟨rfl, by decide, by decide, by decide⟩
  · next hne =>
    rw [Bool.not_eq_true] at hne
    set step2 := collapseSeps (pyStripWs (s.filter keepClass)) false with hstep2
    have hall : (pyStripChars ['_'] step2).all allowedFilenameChar = true := by
      apply all_pyStripChars
      apply all_collapseSeps
      apply all_pyStripWs
      rw [List.all_eq_true]
      intro x hx
      exact List.of_mem_filter hx
    refine ⟨hne, hall, ?_, ?_⟩
    · unfold pyStripChars at hne ⊢
      rw [List.head?_reverse]
      set x := (step2.dropWhile (fun c => (['_'] : PyStr).contains c)).reverse.dropWhile
        (fun c => (['_'] : PyStr).contains c) with hx
      have hxne : x ≠ [] := by
        intro he
        rw [he] at hne
        simp at hne
      rw [getLast?_dropWhile_of_ne_nil _ hxne, List.getLast?_reverse]
      cases hh : (step2.dropWhile (fun c => (['_'] : PyStr).contains c)).head? with
      | none =>
        exfalso
        apply hxne
        rw [hx]
        have : step2.dropWhile (fun c => (['_'] : PyStr).contains c) = [] :=
          List.head?_eq_none_iff.mp hh
        rw [this]
        rfl
      | some c =>
        have := head?_dropWhile_not _ _ hh
        have hcn := contains_underscore_false this
        simp [hcn]
    · unfold pyStripChars
      rw [List.getLast?_reverse]
      cases hh : ((step2.dropWhile (fun c => (['_'] : PyStr).contains c)).reverse.dropWhile
          (fun c => (['_'] : PyStr).contains c)).head? with
      | none => simp [hh]
      | some c =>
        have := head?_dropWhile_not _ _ hh
        have hcn := contains_underscore_false this
        simp [hh, hcn]
